import Mathlib

/-!
Shallow embedding of the `mindstormer` EV3 block-diagram parser
(`src/ev3/parser.rs`, current-generation code) together with proofs about
the behaviour its specification describes.

Conventions of the embedding:
* `anyhow::Result` is modelled by `Except PErr`; `bail!`/`ensure!` become
  `Except.error (PErr.msg _)` with abbreviated messages, and a Rust `panic`
  (an `unwrap` of `None`) becomes the distinguished error `PErr.panic`.
* Rust `usize`/`isize` are modelled by `Nat`/`Int`; integer parsing follows
  `FromStr` (optional sign, decimal digits, failure outside the 64-bit
  `usize`/`isize` range of the program's targets).
* Strings are Lean `String`s; the byte-indexed slicing used by
  `parse_joints` (`str::get`, `str::find`) is modelled byte-accurately via
  UTF-8 byte lengths, so that the panic conditions match the Rust code.
* The XML event stream of the external tokenizer interface is the inductive
  `Event`; the end-of-stream marker is the final element `Event.eof`
  (`FileBuilder::parse` terminates successfully on `Event::Eof`).
-/

namespace Mindstormer

/-- Errors: `msg` models an `anyhow` error (`bail!`/`context`), `panic`
models a Rust panic (`unwrap` on `None`). -/
inductive PErr where
  | msg (s : String)
  | panic
deriving DecidableEq, Repr

/-- Result type of every fallible routine of the parser. -/
abbrev Res (α : Type) := Except PErr α

/-- Models `Option::context(msg)`: upgrade an `Option` to a result. -/
def ctx (o : Option α) (m : String) : Res α :=
  match o with
  | some a => Except.ok a
  | none => Except.error (PErr.msg m)

/-- Models Rust `str::split(sep)` on the character level: splits at every
occurrence of `sep`, keeping empty pieces (so `""` gives `[[]]`). -/
def splitChar (sep : Char) : List Char → List (List Char)
  | [] => [[]]
  | c :: cs =>
    let r := splitChar sep cs
    if c = sep then [] :: r
    else
      match r with
      | [] => [[c]]
      | t :: ts => (c :: t) :: ts

/-- Decimal value of a digit list. -/
def digitsToNat (cs : List Char) : Nat :=
  cs.foldl (fun a c => a * 10 + (c.toNat - 48)) 0

/-- Largest `usize` value: the targets this program builds for have
64-bit pointers. -/
def usizeMax : Nat := 2 ^ 64 - 1

/-- Largest `isize` value (64-bit). -/
def isizeMaxNat : Nat := 2 ^ 63 - 1

/-- Magnitude of the smallest `isize` value (64-bit). -/
def isizeMinMagnitude : Nat := 2 ^ 63

/-- Models `str::parse::<usize>` (Rust `FromStr` for unsigned integers):
an optional `+` sign followed by one or more decimal digits, failing with
`PosOverflow` — here `none` — on values above `usize::MAX`. -/
def parseUsize (s : List Char) : Option Nat :=
  let cs := match s with
    | '+' :: rest => rest
    | cs => cs
  if cs.isEmpty then none
  else if cs.all Char.isDigit then
    let v := digitsToNat cs
    if v ≤ usizeMax then some v else none
  else none

/-- Models `str::parse::<isize>`: an optional `+`/`-` sign followed by one
or more decimal digits, failing — `none` — outside
`isize::MIN ..= isize::MAX`. -/
def parseIsize (s : List Char) : Option Int :=
  match s with
  | '-' :: rest =>
      if rest.isEmpty then none
      else if rest.all Char.isDigit then
        let v := digitsToNat rest
        if v ≤ isizeMinMagnitude then some (-(v : Int)) else none
      else none
  | '+' :: rest =>
      if rest.isEmpty then none
      else if rest.all Char.isDigit then
        let v := digitsToNat rest
        if v ≤ isizeMaxNat then some (v : Int) else none
      else none
  | cs =>
      if cs.isEmpty then none
      else if cs.all Char.isDigit then
        let v := digitsToNat cs
        if v ≤ isizeMaxNat then some (v : Int) else none
      else none

/-- Models the Rust iterator `collect::<Result<Vec<_>,_>>` over `Option`:
succeeds with the list of values iff every element parses. -/
def collectOpts (f : α → Option β) : List α → Option (List β)
  | [] => some []
  | x :: l =>
    match f x with
    | none => none
    | some y => (collectOpts f l).map (y :: ·)

/-- `parse_bounds` (parser.rs:805): splits on single spaces, parses every
field as `usize`, requires exactly 4 fields and returns fields 3 and 4. -/
def parse_bounds (input : String) : Res (Nat × Nat) :=
  match collectOpts parseUsize (splitChar ' ' input.data) with
  | none => Except.error (PErr.msg "Invalid number in bounds")
  | some vals =>
    match vals with
    | [_, _, w, h] => Except.ok (w, h)
    | _ => Except.error (PErr.msg "Expected 4 bounds")

/-- UTF-8 byte length of a character. -/
def byteLen (c : Char) : Nat :=
  if c.toNat < 0x80 then 1
  else if c.toNat < 0x800 then 2
  else if c.toNat < 0x10000 then 3
  else 4

/-- Total UTF-8 byte length of a character list. -/
def strBytes (cs : List Char) : Nat := (cs.map byteLen).sum

/-- Byte index of the first occurrence of `target` (Rust `str::find`). -/
def findByteIdx (target : Char) : List Char → Option Nat
  | [] => none
  | c :: cs =>
    if c = target then some 0
    else (findByteIdx target cs).map (byteLen c + ·)

/-- Drop `a` bytes: `some` iff `a` is a character boundary within bounds. -/
def dropBytes : List Char → Nat → Option (List Char)
  | cs, 0 => some cs
  | [], _ => none
  | c :: cs, a => if byteLen c ≤ a then dropBytes cs (a - byteLen c) else none

/-- Take `b` bytes: `some` iff `b` is a character boundary within bounds. -/
def takeBytes : List Char → Nat → Option (List Char)
  | _, 0 => some []
  | [], _ => none
  | c :: cs, b =>
    if byteLen c ≤ b then (takeBytes cs (b - byteLen c)).map (c :: ·) else none

/-- Models Rust `str::get(a..b)`: `some` iff `a ≤ b` and both are character
boundaries within the string. -/
def sliceBytes (cs : List Char) (a b : Nat) : Option (List Char) :=
  if a ≤ b then (dropBytes cs a).bind (fun rest => takeBytes rest (b - a)) else none

/-- One token of the `Joints` string, as processed by the iterator chain in
`parse_joints` (parser.rs:731-744): split off the 1-byte kind
(`s.get(0..1).unwrap()` / `s.get(1..).unwrap()`), keep only kind `"N"`,
then extract `(id, role)` between `(`, `:` and `)`
(`find`/`get` with `unwrap`).  `Except.error PErr.panic` marks exactly the
inputs on which the Rust code panics; `Except.ok none` is a filtered-out
token. -/
def jointToken (s : List Char) : Res (Option (List Char × List Char)) :=
  match sliceBytes s 0 1, sliceBytes s 1 (strBytes s) with
  | some k, some rest =>
    if k = ['N'] then
      match findByteIdx ':' rest, findByteIdx ')' rest with
      | some i, some j =>
        match sliceBytes rest 1 i, sliceBytes rest (i + 1) j with
        | some id, some role => Except.ok (some (id, role))
        | _, _ => Except.error PErr.panic
      | _, _ => Except.error PErr.panic
    else Except.ok none
  | _, _ => Except.error PErr.panic

/-- Loop body of `parse_joints`: record the id under the matching role
(later occurrences overwrite), reject any other role. -/
def jointsStep (acc : Option (List Char) × Option (List Char)) (t : List Char) :
    Res (Option (List Char) × Option (List Char)) := do
  match ← jointToken t with
  | none => pure acc
  | some (id, role) =>
    if role = "SequenceOut".data then pure (acc.1, some id)
    else if role = "SequenceIn".data then pure (some id, acc.2)
    else Except.error (PErr.msg "Unexpected value for joint")

/-- The `for (id, val) in iter` loop of `parse_joints`, processing tokens
left to right (the Rust iterator is lazy, so a panic or error on a token
occurs before later tokens are examined). -/
def jointsFold : List (List Char) → (Option (List Char) × Option (List Char)) →
    Res (Option (List Char) × Option (List Char))
  | [], acc => Except.ok acc
  | t :: ts, acc => do
    let acc2 ← jointsStep acc t
    jointsFold ts acc2

/-- `parse_joints` (parser.rs:730): decode a `Joints` attribute into the
`(SequenceIn id, SequenceOut id)` pair. -/
def parse_joints (val : String) : Res (String × String) := do
  let acc ← jointsFold (splitChar ' ' val.data) (none, none)
  let si ← ctx acc.1 "Expected input joint"
  let so ← ctx acc.2 "Expected output joint"
  Except.ok (String.mk si, String.mk so)

/-- A token decodes without panicking (its `get`/`find` unwraps succeed or
it is filtered out). -/
def tokWF (t : List Char) : Bool :=
  match jointToken t with
  | Except.ok _ => true
  | Except.error _ => false

/-- The role carried by an `N`-kind token (`none` for filtered tokens). -/
def tokRole (t : List Char) : Option (List Char) :=
  match jointToken t with
  | Except.ok (some p) => some p.2
  | _ => none

/-- The token's role, if any, is one the joint decoder accepts. -/
def roleOk (t : List Char) : Bool :=
  match tokRole t with
  | none => true
  | some r => r == "SequenceIn".data || r == "SequenceOut".data

/-- Some token of the list carries the given role. -/
def hasRole (r : List Char) (toks : List (List Char)) : Bool :=
  toks.any (fun t => tokRole t == some r)

/-- A decoded XML attribute (`ParsedAttribute` of `utils.rs::xml`):
`key = (name, prefix)` plus a UTF-8 value.  The field `pfx` is the
attribute's namespace prefix. -/
structure ParsedAttribute where
  name : String
  pfx : Option String
  value : String
deriving DecidableEq, Repr

/-- Shorthand for an attribute without a namespace prefix. -/
def attr (n v : String) : ParsedAttribute := ⟨n, none, v⟩

/-- One element of the tokenizer's event stream (`quick_xml::events::Event`
after name/attribute decoding).  `eof` is the end-of-stream marker, the
final element of a stream. -/
inductive Event where
  | startTag (name : String) (pfx : Option String) (attrs : List ParsedAttribute)
  | endTag (name : String) (pfx : Option String)
  | emptyTag (name : String) (pfx : Option String) (attrs : List ParsedAttribute)
  | text (s : String)
  | comment
  | cdata
  | decl (d : String)
  | pi
  | doctype
  | eof
deriving DecidableEq, Repr

/-- `Version` (project.rs): `ns` is the `namespace` field (a Lean keyword). -/
structure Version where
  number : String
  ns : String
deriving DecidableEq, Repr

/-- `SequenceBlockType` (parser.rs:30). -/
inductive SequenceBlockType where
  | seqIn
  | seqOut
deriving DecidableEq, Repr

/-- `SequenceBlock` (parser.rs:35). -/
structure SequenceBlock where
  ty : SequenceBlockType
  bounds : Nat × Nat
  wire_id : Option String
deriving DecidableEq, Repr

/-- `BlockType` (parser.rs:41). -/
inductive BlockType where
  | start
  | motorMove (ports : Char × Char) (steering : Int) (speed : Nat)
deriving DecidableEq, Repr

/-- `Block` (parser.rs:50). -/
structure Block where
  ty : BlockType
  bounds : Nat × Nat
  sequence_in : Option SequenceBlock
  sequence_out : Option SequenceBlock
deriving DecidableEq, Repr

/-- `Wire` (parser.rs:57). -/
structure Wire where
  input : String
  output : String
deriving DecidableEq, Repr

/-- `HashMap::get` on the association-list model of the id maps. -/
def mapGet (m : List (String × α)) (k : String) : Option α :=
  (m.find? (fun p => p.1 == k)).map (·.2)

/-- `HashMap::insert`: replace the value when the key is present, otherwise
append the new binding. -/
def mapInsert (m : List (String × α)) (k : String) (v : α) : List (String × α) :=
  if (m.find? (fun p => p.1 == k)).isSome then
    m.map (fun p => if p.1 == k then (k, v) else p)
  else m ++ [(k, v)]

/-- `FileBuilder` (parser.rs:62).  `decl` keeps the XML prolog as an opaque
string (`BytesDecl` passthrough); `events`/`idx` form the event cursor. -/
structure FileBuilder where
  decl : Option String := none
  version : Option Version := none
  name : Option String := none
  blocks : List (String × Block) := []
  wires : List (String × Wire) := []
  events : List Event := []
  idx : Nat := 0
deriving DecidableEq, Repr

/-- `File` (project.rs:15). -/
structure File where
  decl : String
  version : Version
  name : String
  blocks : List (String × Block)
  wires : List (String × Wire)
deriving DecidableEq, Repr

/-- `FileBuilder::next_event` (parser.rs:83): return the event at the
current position and advance, or fail when the position is past the end. -/
def next_event (b : FileBuilder) : Res (Event × FileBuilder) :=
  if h : b.idx < b.events.length then
    Except.ok (b.events.get ⟨b.idx, h⟩, { b with idx := b.idx + 1 })
  else Except.error (PErr.msg "Invalid index into events")

/-- `FileBuilder::peek_event` (parser.rs:95): return the event at the
current position without advancing. -/
def peek_event (b : FileBuilder) : Res Event :=
  if h : b.idx < b.events.length then
    Except.ok (b.events.get ⟨b.idx, h⟩)
  else Except.error (PErr.msg "Invalid index into events")

/-- `FileBuilder::name` (parser.rs:759): set once, fail on a second call. -/
def setName (nm : String) (b : FileBuilder) : Res FileBuilder :=
  if b.name.isSome then Except.error (PErr.msg "Setting builder name twice")
  else Except.ok { b with name := some nm }

/-- `FileBuilder::version` (parser.rs:767). -/
def setVersion (v : Version) (b : FileBuilder) : Res FileBuilder :=
  if b.version.isSome then Except.error (PErr.msg "Setting builder version twice")
  else Except.ok { b with version := some v }

/-- `FileBuilder::decl` (parser.rs:779). -/
def setDecl (d : String) (b : FileBuilder) : Res FileBuilder :=
  if b.decl.isSome then Except.error (PErr.msg "Setting builder decl twice")
  else Except.ok { b with decl := some d }

/-- The `SourceFile` attribute loop (parser.rs:160-168): collect `Version`
and `xmlns`, reject anything else. -/
def sourceFileAttrs (attrs : List ParsedAttribute) : Res (Option String × Option String) :=
  attrs.foldlM (fun acc a =>
    match a.name with
    | "Version" => Except.ok (some a.value, acc.2)
    | "xmlns" => Except.ok (acc.1, some a.value)
    | _ => Except.error (PErr.msg "Unknown SourceFile attribute")) (none, none)

/-- The `Namespace` attribute loop (parser.rs:177-181). -/
def namespaceCheck (attrs : List ParsedAttribute) : Res Unit :=
  attrs.forM (fun a =>
    if a.name == "Name" && a.value != "Project" then
      Except.error (PErr.msg "Unsupported namespace that is not project")
    else Except.ok ())

/-- The `BlockDiagram` attribute loop (parser.rs:188-199). -/
def blockDiagramCheck (attrs : List ParsedAttribute) : Res Unit :=
  attrs.forM (fun a =>
    if a.name ≠ "Name" then Except.error (PErr.msg "Unknown block diagram attribute")
    else if a.value ≠ "__RootDiagram__" then
      Except.error (PErr.msg "Unknown block diagram name value")
    else Except.ok ())

/-- The `StartBlock` attribute loop (parser.rs:242-255): collect `Id` and
the decoded `Bounds`, ignore `Target`, reject anything else. -/
def startBlockAttrs (attrs : List ParsedAttribute) :
    Res (Option String × Option Nat × Option Nat) :=
  attrs.foldlM (fun acc a =>
    match a.name with
    | "Id" => Except.ok (some a.value, acc.2.1, acc.2.2)
    | "Target" => Except.ok acc
    | "Bounds" => do
      let wh ← parse_bounds a.value
      Except.ok (acc.1, some wh.1, some wh.2)
    | _ => Except.error (PErr.msg "Unknown attribute in StartBlock")) (none, none, none)

/-- The `Terminal` attribute loop of the Start-block sub-parser
(parser.rs:316-349): `Id` must be `SequenceOut`, `Direction` must be
`Output`, `DataType` is the fixed sequence-wire type, `Hotspot` is ignored,
`Wire` and decoded `Bounds` are collected. -/
def startBlockTerminalAttrs (attrs : List ParsedAttribute) :
    Res (Option (Nat × Nat) × Option String) :=
  attrs.foldlM (fun acc a =>
    match a.name with
    | "Id" =>
      if a.value = "SequenceOut" then Except.ok acc
      else Except.error (PErr.msg "Unexpected Id in StartBlock SequenceOut")
    | "Direction" =>
      if a.value = "Output" then Except.ok acc
      else Except.error (PErr.msg "Unexpected Direction in StartBlock SequenceOut")
    | "Wire" => Except.ok (acc.1, some a.value)
    | "DataType" =>
      if a.value = "NationalInstruments:SourceModel:DataTypes:X3SequenceWireDataType" then
        Except.ok acc
      else Except.error (PErr.msg "Unexpected DataType in StartBlock SequenceOut")
    | "Hotspot" => Except.ok acc
    | "Bounds" => do
      let bd ← parse_bounds a.value
      Except.ok (some bd, acc.2)
    | _ =>
      Except.error (PErr.msg "Unexpected attribute for SequenceOut in StartBlock")) (none, none)

/-- `FileBuilder::parse_start_block` (parser.rs:235): the fixed-shape
Start-block construct — a `ConfigurableMethodTerminal` open tag without
attributes, one ignored empty tag, its close, one empty `SequenceOut`
`Terminal`, and the `StartBlock` close tag. -/
def parse_start_block (attrs : List ParsedAttribute) (b : FileBuilder) :
    Res ((String × Block) × FileBuilder) := do
  let (oid, ow, oh) ← startBlockAttrs attrs
  let id ← ctx oid "Missing id for StartBlock"
  let width ← ctx ow "Missing width for StartBlock"
  let height ← ctx oh "Missing height for StartBlock"
  let (ev, b) ← next_event b
  let (n1, p1, a1) ←
    match ev with
    | Event.startTag n p a => pure (n, p, a)
    | _ => throw (PErr.msg "Expected start tag in StartBlock")
  if !a1.isEmpty then throw (PErr.msg "Unexpected attributes in StartBlock tag")
  if p1.isSome then throw (PErr.msg "Unexpected prefix in StartBlock tag")
  if n1 ≠ "ConfigurableMethodTerminal" then
    throw (PErr.msg "Unexpected tag name in StartBlock tag")
  let (ev, b) ← next_event b
  match ev with
  | Event.emptyTag _ _ _ => pure ()
  | _ => throw (PErr.msg "Expected empty tag inside ConfigurableMethodTerminal in StartBlock tag")
  let (ev, b) ← next_event b
  let (n2, p2) ←
    match ev with
    | Event.endTag n p => pure (n, p)
    | _ => throw (PErr.msg "Expected end tag to end ConfigurableMethodTerminal in StartBlock tag")
  if p2.isSome then throw (PErr.msg "Unexpected prefix to end ConfigurableMethodTerminal tag")
  if n2 ≠ "ConfigurableMethodTerminal" then
    throw (PErr.msg "Unexpected tag name to end ConfigurableMethodTerminal")
  let (ev, b) ← next_event b
  let (n3, p3, a3) ←
    match ev with
    | Event.emptyTag n p a => pure (n, p, a)
    | _ => throw (PErr.msg "Expected empty tag in StartBlock")
  if n3 ≠ "Terminal" then throw (PErr.msg "Unexpected empty tag in StartBlock")
  if p3.isSome then throw (PErr.msg "Unexpected prefix in empty tag")
  let (obd, wire_id) ← startBlockTerminalAttrs a3
  let bounds ← ctx obd "No bounds in StartBlock SequenceOut"
  let sequence_out := some { ty := SequenceBlockType.seqOut, bounds := bounds, wire_id := wire_id }
  let (ev, b) ← next_event b
  let (n4, p4) ←
    match ev with
    | Event.endTag n p => pure (n, p)
    | _ => throw (PErr.msg "Expected end tag in StartBlock")
  if n4 ≠ "StartBlock" then throw (PErr.msg "Unexpected end tag")
  if p4.isSome then throw (PErr.msg "Unexpected prefix in end tag")
  Except.ok ((id,
    { ty := BlockType.start, bounds := (width, height),
      sequence_in := none, sequence_out := sequence_out }), b)

/-- `BlockAttribute` (parser.rs:25). -/
structure BlockAttribute where
  id : String
  value : String
deriving DecidableEq, Repr

/-- The `Terminal` attribute loop of the attribute routine
(parser.rs:571-579): collect `Id`, skip the known decorative names,
reject anything else. -/
def terminalAttrsFold (attrs : List ParsedAttribute) : Res (Option String) :=
  attrs.foldlM (fun acc a =>
    match a.name with
    | "Id" => Except.ok (some a.value)
    | "Direction" | "DataType" | "Hotspot" | "Bounds" => Except.ok acc
    | _ => Except.error (PErr.msg "Unexpected attribute in Terminal")) none

/-- `FileBuilder::parse_block_attribute` (parser.rs:519): peek — a
non-start event signals the end of the attribute list; otherwise consume a
`ConfigurableMethodTerminal` carrying exactly one `ConfiguredValue`
attribute, an empty `Terminal` supplying the attribute id, and the close
tag. -/
def parse_block_attribute (b : FileBuilder) : Res (Option BlockAttribute × FileBuilder) := do
  let pe ← peek_event b
  match pe with
  | Event.startTag tn tp ta => do
    let (_, b) ← next_event b
    if tp.isSome then throw (PErr.msg "Unexpected prefix in ConfigurableMethodTerminal")
    if tn ≠ "ConfigurableMethodTerminal" then
      throw (PErr.msg "Unexpected start tag where ConfigurableMethodTerminal was expected")
    let a0 ←
      match ta with
      | [a] => pure a
      | _ => throw (PErr.msg "Expected only 1 attribute in ConfigurableMethodTerminal")
    if a0.name ≠ "ConfiguredValue" then throw (PErr.msg "Expected attribute ConfiguredValue")
    let value := a0.value
    let pe2 ← peek_event b
    let (n2, p2, a2) ←
      match pe2 with
      | Event.emptyTag n p a => pure (n, p, a)
      | _ => throw (PErr.msg "Expected empty tag after ConfigurableMethodTerminal tag")
    let (_, b) ← next_event b
    if p2.isSome then throw (PErr.msg "Unexpected prefix in ConfigurableMethodTerminal")
    if n2 ≠ "Terminal" then throw (PErr.msg "Expected Terminal empty tag")
    let oid ← terminalAttrsFold a2
    let id ← ctx oid "Failed to find id in Terminal"
    let (ev3, b) ← next_event b
    match ev3 with
    | Event.endTag _ _ => Except.ok (some ⟨id, value⟩, b)
    | _ => throw (PErr.msg "Expected ConfigurableMethodTerminal end tag")
  | _ => Except.ok (none, b)

/-- The shared `Terminal` attribute loop of the terminal-pair sub-parser
(parser.rs:606-635 and 660-689, which differ only in the literals for the
expected `Id` and `Direction`): returns `(wire, bounds)`. -/
def seqTerminalAttrs (idVal dirVal : String) (attrs : List ParsedAttribute) :
    Res (Option String × Option (Nat × Nat)) :=
  attrs.foldlM (fun acc a =>
    match a.name with
    | "Id" =>
      if a.value = idVal then Except.ok acc
      else Except.error (PErr.msg "Unexpected sequence terminal Id")
    | "Direction" =>
      if a.value = dirVal then Except.ok acc
      else Except.error (PErr.msg "Unexpected sequence terminal Direction")
    | "Wire" => Except.ok (some a.value, acc.2)
    | "DataType" =>
      if a.value = "NationalInstruments:SourceModel:DataTypes:X3SequenceWireDataType" then
        Except.ok acc
      else Except.error (PErr.msg "Unexpected sequence terminal DataType")
    | "Hotspot" => Except.ok acc
    | "Bounds" => do
      let bd ← parse_bounds a.value
      Except.ok (acc.1, some bd)
    | _ => Except.error (PErr.msg "Unexpected sequence attribute")) (none, none)

/-- `FileBuilder::parse_method_sequence_blocks` (parser.rs:588): exactly
two empty `Terminal` tags, `SequenceIn`/`Input` then `SequenceOut`/`Output`,
each with required bounds and optional wire. -/
def parse_method_sequence_blocks (b : FileBuilder) :
    Res ((SequenceBlock × SequenceBlock) × FileBuilder) := do
  let (ev, b) ← next_event b
  let (n1, p1, a1) ←
    match ev with
    | Event.emptyTag n p a => pure (n, p, a)
    | _ => throw (PErr.msg "Expected empty tag for parsing sequence block")
  if p1.isSome then
    throw (PErr.msg "Unexpected prefix in ConfigurableMethodCall sequence tag")
  if n1 ≠ "Terminal" then throw (PErr.msg "Expected tag name Terminal")
  let (wi, ob1) ← seqTerminalAttrs "SequenceIn" "Input" a1
  let bd1 ← ctx ob1 "Failed finding bounds"
  let sequence_in : SequenceBlock := ⟨SequenceBlockType.seqIn, bd1, wi⟩
  let (ev, b) ← next_event b
  let (n2, p2, a2) ←
    match ev with
    | Event.emptyTag n p a => pure (n, p, a)
    | _ => throw (PErr.msg "Expected empty tag for parsing sequence block")
  if p2.isSome then
    throw (PErr.msg "Unexpected prefix in ConfigurableMethodCall sequence tag")
  if n2 ≠ "Terminal" then throw (PErr.msg "Expected tag name Terminal")
  let (wo, ob2) ← seqTerminalAttrs "SequenceOut" "Output" a2
  let bd2 ← ctx ob2 "Failed finding bounds"
  let sequence_out : SequenceBlock := ⟨SequenceBlockType.seqOut, bd2, wo⟩
  Except.ok ((sequence_in, sequence_out), b)

/-- Accumulator of the motor-move attribute loop (parser.rs:418-420). -/
structure MotorAcc where
  ports : Option (Char × Char) := none
  steering : Option Int := none
  speed : Option Nat := none
deriving DecidableEq, Repr

/-- One arm of the motor-move attribute match (parser.rs:425-452).
`Ports` takes the characters at indices 2 and 4 (the `chars()` iterator is
advanced past two, one, then one positions); `Steering`/`Speed` parse as
`isize`/`usize`; the `InterruptsToListenFor_…` attribute is ignored. -/
def motorAttrStep (acc : MotorAcc) (id value : String) : Res MotorAcc :=
  match id with
  | "Ports" => do
    let p1 ← ctx value.data[2]? "Expected first port"
    let p2 ← ctx value.data[4]? "Expected second port"
    Except.ok { acc with ports := some (p1, p2) }
  | "Steering" => do
    let st ← ctx (parseIsize value.data) "Failed parsing steering value as number"
    Except.ok { acc with steering := some st }
  | "Speed" => do
    let sp ← ctx (parseUsize value.data) "Failed parsing speed value as number"
    Except.ok { acc with speed := some sp }
  | "InterruptsToListenFor_16B03592_CD76_4D58_8DC3_E3C3091E327A" => Except.ok acc
  | _ => Except.error (PErr.msg "Unexpected block attribute for MotorMove")

/-- The `while let Some(..) = parse_block_attribute()` loop of
`parse_motor_move` (parser.rs:421-453), with explicit fuel.  Every
iteration that continues consumes at least three events, so any fuel
exceeding the number of remaining events makes the fuel bound unreachable. -/
def motorAttrLoop : Nat → MotorAcc → FileBuilder → Res (MotorAcc × FileBuilder)
  | 0, _, _ => Except.error (PErr.msg "Out of fuel")
  | fuel + 1, acc, b => do
    let (oa, b) ← parse_block_attribute b
    match oa with
    | none => Except.ok (acc, b)
    | some ba => do
      let acc ← motorAttrStep acc ba.id ba.value
      motorAttrLoop fuel acc b

/-- `FileBuilder::parse_motor_move` (parser.rs:417): collect the block
attributes, require `Ports`, `Steering` and `Speed`, then read the terminal
pair. -/
def parse_motor_move (bounds : Nat × Nat) (b : FileBuilder) : Res (Block × FileBuilder) := do
  let (acc, b) ← motorAttrLoop (b.events.length + 1 - b.idx) {} b
  let ports ← ctx acc.ports "Failed finding ports for MotorMove"
  let steering ← ctx acc.steering "Failed finding steering for MotorMove"
  let speed ← ctx acc.speed "Failed finding speed for MotorMove"
  let (sio, b) ← parse_method_sequence_blocks b
  Except.ok ({ bounds := bounds, sequence_in := some sio.1, sequence_out := some sio.2,
               ty := BlockType.motorMove ports steering speed }, b)

/-- The `ConfigurableMethodCall` attribute loop (parser.rs:383-391). -/
def methodCallAttrs (attrs : List ParsedAttribute) :
    Res (Option String × Option (Nat × Nat) × Option String) :=
  attrs.foldlM (fun acc a =>
    match a.name with
    | "Id" => Except.ok (some a.value, acc.2.1, acc.2.2)
    | "Bounds" => do
      let bd ← parse_bounds a.value
      Except.ok (acc.1, some bd, acc.2.2)
    | "Target" => Except.ok (acc.1, acc.2.1, some a.value)
    | _ => Except.error (PErr.msg "Unexpected attribute in ConfigurableMethodCall")) (none, none, none)

/-- `FileBuilder::parse_method_call` (parser.rs:376): read `Id`, `Bounds`,
`Target`; the Rust code compares `Target` against the string literal
`"MoveUnlimited\\.vix"`, i.e. `MoveUnlimited\.vix` with a literal backslash
before the dot; then the close tag is consumed. -/
def parse_method_call (attrs : List ParsedAttribute) (b : FileBuilder) :
    Res ((String × Block) × FileBuilder) := do
  let (oid, obd, oty) ← methodCallAttrs attrs
  let id ← ctx oid "Failed to find id for ConfigurableMethodCall"
  let bounds ← ctx obd "Failed to find bounds for ConfigurableMethodCall"
  let ty ← ctx oty "Failed to find target type for ConfigurableMethodCall"
  let (res, b) ←
    if ty = "MoveUnlimited\\.vix" then do
      let (blk, b) ← parse_motor_move bounds b
      pure ((id, blk), b)
    else throw (PErr.msg "Unknown call type")
  let (ev, b) ← next_event b
  let (n, p) ←
    match ev with
    | Event.endTag n p => pure (n, p)
    | _ => throw (PErr.msg "Expected end tag")
  if p.isSome then throw (PErr.msg "Unexpected prefix in ConfigurableMethodTerminal")
  if n ≠ "ConfigurableMethodCall" then
    throw (PErr.msg "Expected end tag for ConfigurableMethodCall")
  Except.ok (res, b)

/-- `FileBuilder::parse_wire_tag` (parser.rs:699): read `Id` and the
decoded `Joints`, require all three pieces. -/
def parse_wire_tag (attrs : List ParsedAttribute) : Res (String × Wire) := do
  let acc ← attrs.foldlM (fun (acc : Option String × Option String × Option String) a =>
    match a.name with
    | "Id" => Except.ok (some a.value, acc.2.1, acc.2.2)
    | "Joints" => do
      let io ← parse_joints a.value
      Except.ok (acc.1, some io.1, some io.2)
    | _ => Except.error (PErr.msg "Unexpected attribute in wire")) (none, none, none)
  let seq_in ← ctx acc.2.1 "Failed finding input"
  let seq_out ← ctx acc.2.2 "Failed finding output"
  let id ← ctx acc.1 "Failed finding id"
  Except.ok (id, { input := seq_in, output := seq_out })

/-- `FileBuilder::parse_start_tag` (parser.rs:149): the name-keyed handler
table for start tags.  A `StartBlock` is inserted without a duplicate
check (parser.rs:208-210); a `ConfigurableMethodCall` fails on a duplicate
id (parser.rs:219-221); unlisted names fail. -/
def parse_start_tag (name : String) (pfx : Option String) (attrs : List ParsedAttribute)
    (b : FileBuilder) : Res (Unit × FileBuilder) := do
  match name with
  | "SourceFile" => do
    if pfx.isSome then throw (PErr.msg "Unexpected prefix in SourceFile start tag")
    let (onum, ons) ← sourceFileAttrs attrs
    let number ← ctx onum "Missing source file version number"
    let nspace ← ctx ons "Missing source file namespace"
    let b ← setVersion { number := number, ns := nspace } b
    Except.ok ((), b)
  | "Namespace" => do
    if pfx.isSome then throw (PErr.msg "Unexpected prefix in Namespace start tag")
    namespaceCheck attrs
    Except.ok ((), b)
  | "VirtualInstrument" => Except.ok ((), b)
  | "FrontPanel" => Except.ok ((), b)
  | "BlockDiagram" => do
    blockDiagramCheck attrs
    Except.ok ((), b)
  | "StartBlock" => do
    if pfx.isSome then throw (PErr.msg "Unexpected prefix in StartBlock start tag")
    let (ib, b) ← parse_start_block attrs b
    Except.ok ((), { b with blocks := mapInsert b.blocks ib.1 ib.2 })
  | "ConfigurableMethodCall" => do
    if pfx.isSome then throw (PErr.msg "Unexpected prefix in ConfigurableMethodCall start tag")
    let (ib, b) ← parse_method_call attrs b
    if (mapGet b.blocks ib.1).isSome then throw (PErr.msg "Multiple blocks with id used")
    Except.ok ((), { b with blocks := mapInsert b.blocks ib.1 ib.2 })
  | "Icon" => Except.ok ((), b)
  | "IconPanel" => Except.ok ((), b)
  | "AnimationProperties.Animations" => Except.ok ((), b)
  | "EventProperties.Events" => Except.ok ((), b)
  | _ => Except.error (PErr.msg "start tag not implemented")

/-- `FileBuilder::parse_end_tag` (parser.rs:475): whitelist of no-op
closers (the prefix is ignored by the code). -/
def parse_end_tag (name : String) (_pfx : Option String) : Res Unit :=
  match name with
  | "FrontPanel" | "BlockDiagram" | "AnimationProperties.Animations"
  | "EventProperties.Events" | "IconPanel" | "Icon" | "VirtualInstrument"
  | "Namespace" | "SourceFile" => Except.ok ()
  | _ => Except.error (PErr.msg "end tag not implemented")

/-- `FileBuilder::parse_empty_tag` (parser.rs:492): whitelist of empty-tag
handlers; `Wire` decodes and inserts a wire, failing on a duplicate id. -/
def parse_empty_tag (name : String) (_pfx : Option String) (attrs : List ParsedAttribute)
    (b : FileBuilder) : Res (Unit × FileBuilder) := do
  match name with
  | "FrontPanelCanvas" => Except.ok ((), b)
  | "AnimationsContainer" => Except.ok ((), b)
  | "EventContainer" => Except.ok ((), b)
  | "Wire" => do
    let (id, wire) ← parse_wire_tag attrs
    if (mapGet b.wires id).isSome then throw (PErr.msg "Found duplicate wire ids")
    Except.ok ((), { b with wires := mapInsert b.wires id wire })
  | _ => Except.error (PErr.msg "empty tag not implemented")

/-- The event-dispatch loop of `FileBuilder::parse` (parser.rs:105), with
explicit fuel.  Every iteration consumes exactly one event before
dispatching (sub-parsers only consume more), so any fuel exceeding the
number of remaining events plus one makes the fuel bound unreachable. -/
def parseLoop : Nat → FileBuilder → Res FileBuilder
  | 0, _ => Except.error (PErr.msg "Out of fuel")
  | fuel + 1, b => do
    let (ev, b) ← next_event b
    match ev with
    | Event.startTag n p a => do
      let (_, b) ← parse_start_tag n p a b
      parseLoop fuel b
    | Event.endTag n p => do
      parse_end_tag n p
      parseLoop fuel b
    | Event.emptyTag n p a => do
      let (_, b) ← parse_empty_tag n p a b
      parseLoop fuel b
    | Event.text _ => Except.error (PErr.msg "Unexpected Text tag")
    | Event.comment => parseLoop fuel b
    | Event.cdata => Except.error (PErr.msg "Unexpected CData tag")
    | Event.decl d => do
      let b ← setDecl d b
      parseLoop fuel b
    | Event.pi => Except.error (PErr.msg "Unexpected Processing tag")
    | Event.doctype => Except.error (PErr.msg "Unexpected DocType tag")
    | Event.eof => Except.ok b

/-- `FileBuilder::parse` (parser.rs:105): run the dispatch loop over the
remaining events (the fuel bound is sufficient, see `parseLoop`). -/
def parse (b : FileBuilder) : Res FileBuilder :=
  parseLoop (b.events.length + 1 - b.idx) b

/-- `FileBuilder::build` (parser.rs:791): finalize the document; name,
version and declaration are all required. -/
def build (b : FileBuilder) : Res File := do
  let name ← ctx b.name "No name found"
  let version ← ctx b.version "No version found"
  let decl ← ctx b.decl "No decl found"
  Except.ok { name := name, version := version, decl := decl,
              blocks := b.blocks, wires := b.wires }

/-- `File::new` (project.rs:24) over the pre-tokenized event stream of the
tokenizer interface (whose final element is the end-of-stream marker
`Event.eof`): build a fresh `FileBuilder`, set the file name, run the
parse, finalize. -/
def runFile (nm : String) (events : List Event) : Res File := do
  let b : FileBuilder := { events := events, idx := 0 }
  let b ← setName nm b
  let b ← parse b
  build b

/-! Canonical well-formed event-stream fragments, used to state the
claims about whole constructs.  They follow the shapes accepted by
`parse_start_block`, `parse_method_call` and the top-level dispatch. -/

/-- The fixed sequence-wire `DataType` value. -/
def dtype : String := "NationalInstruments:SourceModel:DataTypes:X3SequenceWireDataType"

/-- Attributes of the `SequenceOut` terminal of a `StartBlock`, with an
optional `Wire` reference. -/
def sbOutAttrs (w : Option String) : List ParsedAttribute :=
  [attr "Id" "SequenceOut", attr "Direction" "Output", attr "DataType" dtype,
   attr "Bounds" "0 0 10 10"] ++
  (match w with | some s => [attr "Wire" s] | none => [])

/-- The body of a well-formed `StartBlock` construct (the events following
the `StartBlock` start tag). -/
def startBlockBody (w : Option String) : List Event :=
  [Event.startTag "ConfigurableMethodTerminal" none [],
   Event.emptyTag "Terminal" none [],
   Event.endTag "ConfigurableMethodTerminal" none,
   Event.emptyTag "Terminal" none (sbOutAttrs w),
   Event.endTag "StartBlock" none]

/-- Attribute list of a `StartBlock` start tag. -/
def sbAttrs (id : String) : List ParsedAttribute :=
  [attr "Id" id, attr "Bounds" "0 0 20 20"]

/-- The `Block` value a well-formed `StartBlock` construct decodes to. -/
def startBlockVal (w : Option String) : Block :=
  { ty := BlockType.start, bounds := (20, 20), sequence_in := none,
    sequence_out := some { ty := SequenceBlockType.seqOut, bounds := (10, 10), wire_id := w } }

/-- Attributes of a sequence `Terminal` of a method call, with an optional
`Wire` reference. -/
def seqTermAttrs (idv dirv : String) (w : Option String) : List ParsedAttribute :=
  [attr "Id" idv, attr "Direction" dirv, attr "DataType" dtype,
   attr "Bounds" "0 0 10 10"] ++
  (match w with | some s => [attr "Wire" s] | none => [])

/-- One block-attribute construct (`ConfigurableMethodTerminal` open tag
with the configured value, `Terminal` empty tag with the attribute id,
close tag). -/
def blockAttrEvents (idv cv : String) : List Event :=
  [Event.startTag "ConfigurableMethodTerminal" none [attr "ConfiguredValue" cv],
   Event.emptyTag "Terminal" none [attr "Id" idv],
   Event.endTag "ConfigurableMethodTerminal" none]

/-- The body of a well-formed `ConfigurableMethodCall` construct carrying
`Ports`=`"xxAxxB"`, `Steering`=`"-50"`, `Speed`=`"75"`, the terminal pair
and the close tag. -/
def motorCallBody (w1 w2 : Option String) : List Event :=
  blockAttrEvents "Ports" "xxAxxB" ++ blockAttrEvents "Steering" "-50" ++
  blockAttrEvents "Speed" "75" ++
  [Event.emptyTag "Terminal" none (seqTermAttrs "SequenceIn" "Input" w1),
   Event.emptyTag "Terminal" none (seqTermAttrs "SequenceOut" "Output" w2),
   Event.endTag "ConfigurableMethodCall" none]

/-- Attribute list of a `ConfigurableMethodCall` start tag with the given
id and `Target` value. -/
def mcAttrs (id t : String) : List ParsedAttribute :=
  [attr "Id" id, attr "Bounds" "0 0 20 20", attr "Target" t]

/-- The `Block` value a well-formed motor-move method call decodes to
(given the terminal wires): note ports `('A', 'x')`, the characters at
indices 2 and 4 of `"xxAxxB"`. -/
def motorBlockVal (w1 w2 : Option String) : Block :=
  { ty := BlockType.motorMove ('A', 'x') (-50) 75, bounds := (20, 20),
    sequence_in := some { ty := SequenceBlockType.seqIn, bounds := (10, 10), wire_id := w1 },
    sequence_out := some { ty := SequenceBlockType.seqOut, bounds := (10, 10), wire_id := w2 } }

/-- Attribute list of a `Wire` empty tag with a well-formed joints string. -/
def wireAttrs (id joints : String) : List ParsedAttribute :=
  [attr "Id" id, attr "Joints" joints]

/-- The minimal-document event stream of the spec's testable property:
declaration, `SourceFile`, `Namespace`, `VirtualInstrument`, `FrontPanel`,
`BlockDiagram`, one well-formed `StartBlock` construct, end of stream. -/
def minimalStream (id : String) (w : Option String) : List Event :=
  [Event.decl "xml-decl",
   Event.startTag "SourceFile" none [attr "Version" "1.0", attr "xmlns" "ns"],
   Event.startTag "Namespace" none [attr "Name" "Project"],
   Event.startTag "VirtualInstrument" none [],
   Event.startTag "FrontPanel" none [],
   Event.startTag "BlockDiagram" none [attr "Name" "__RootDiagram__"],
   Event.startTag "StartBlock" none (sbAttrs id)] ++
  startBlockBody w ++ [Event.eof]

/-- The minimal-document stream exactly as the claim lists it: without the
declaration event (the end-of-stream marker closes every stream). -/
def minimalStreamNoDecl (id : String) (w : Option String) : List Event :=
  [Event.startTag "SourceFile" none [attr "Version" "1.0", attr "xmlns" "ns"],
   Event.startTag "Namespace" none [attr "Name" "Project"],
   Event.startTag "VirtualInstrument" none [],
   Event.startTag "FrontPanel" none [],
   Event.startTag "BlockDiagram" none [attr "Name" "__RootDiagram__"],
   Event.startTag "StartBlock" none (sbAttrs id)] ++
  startBlockBody w ++ [Event.eof]

/-- An event stream with two well-formed `ConfigurableMethodCall`
constructs sharing one block id, then end of stream. -/
def c5Stream : List Event :=
  [Event.startTag "ConfigurableMethodCall" none (mcAttrs "m" "MoveUnlimited\\.vix")] ++
  motorCallBody none none ++
  [Event.startTag "ConfigurableMethodCall" none (mcAttrs "m" "MoveUnlimited\\.vix")] ++
  motorCallBody none none ++ [Event.eof]

/-- The start-tag names handled by `parse_start_tag` (parser.rs:155-226). -/
def startTagWhitelist : List String :=
  ["SourceFile", "Namespace", "VirtualInstrument", "FrontPanel", "BlockDiagram",
   "StartBlock", "ConfigurableMethodCall", "Icon", "IconPanel",
   "AnimationProperties.Animations", "EventProperties.Events"]

/-! ### General lemmas about the monadic plumbing and the event cursor -/

@[simp]
theorem res_bind_ok (x : α) (f : α → Res β) : (Except.ok x : Res α) >>= f = f x := rfl

@[simp]
theorem res_bind_error (e : PErr) (f : α → Res β) :
    (Except.error e : Res α) >>= f = Except.error e := rfl

@[simp]
theorem res_pure (x : α) : (pure x : Res α) = Except.ok x := rfl

@[simp]
theorem res_throw (e : PErr) : (throw e : Res α) = Except.error e := rfl

@[simp]
theorem ctx_some (a : α) (m : String) : ctx (some a) m = Except.ok a := rfl

@[simp]
theorem ctx_none (m : String) : ctx (none : Option α) m = Except.error (PErr.msg m) := rfl

theorem next_event_cons {b : FileBuilder} {e : Event} {l : List Event}
    (h : b.events.drop b.idx = e :: l) :
    next_event b = Except.ok (e, { b with idx := b.idx + 1 }) := by
  have hlt : b.idx < b.events.length := by
    by_contra hc
    push_neg at hc
    rw [List.drop_eq_nil_of_le hc] at h
    simp at h
  have hget : b.events.get ⟨b.idx, hlt⟩ = e := by
    have h0 : (b.events.drop b.idx).head? = some e := by rw [h]; rfl
    rw [List.head?_drop] at h0
    simpa [List.getElem?_eq_getElem hlt] using h0
  unfold next_event
  rw [dif_pos hlt, hget]

theorem peek_event_cons {b : FileBuilder} {e : Event} {l : List Event}
    (h : b.events.drop b.idx = e :: l) :
    peek_event b = Except.ok e := by
  have hlt : b.idx < b.events.length := by
    by_contra hc
    push_neg at hc
    rw [List.drop_eq_nil_of_le hc] at h
    simp at h
  have hget : b.events.get ⟨b.idx, hlt⟩ = e := by
    have h0 : (b.events.drop b.idx).head? = some e := by rw [h]; rfl
    rw [List.head?_drop] at h0
    simpa [List.getElem?_eq_getElem hlt] using h0
  unfold peek_event
  rw [dif_pos hlt, hget]

theorem drop_succ_cons {b : FileBuilder} {e : Event} {l : List Event}
    (h : b.events.drop b.idx = e :: l) :
    b.events.drop (b.idx + 1) = l := by
  rw [← List.tail_drop, h, List.tail_cons]

/-! ### Lemmas about the id maps -/

theorem mapGet_map_update (m : List (String × α)) (k : String) (v : α)
    (h : (m.find? (fun p => p.1 == k)).isSome = true) :
    mapGet (m.map (fun p => if p.1 == k then (k, v) else p)) k = some v := by
  induction m with
  | nil => simp [List.find?] at h
  | cons p ps ih =>
    by_cases hp : (p.1 == k) = true
    · simp only [List.map_cons, if_pos hp]
      simp [mapGet, List.find?_cons_of_pos]
    · simp only [List.map_cons, if_neg hp]
      have h2 : (ps.find? (fun q => q.1 == k)).isSome = true := by
        rwa [List.find?_cons_of_neg _ (by simpa using hp)] at h
      have := ih h2
      unfold mapGet at this ⊢
      rwa [List.find?_cons_of_neg _ (by simpa using hp)]

theorem mapGet_append_new (m : List (String × α)) (k : String) (v : α)
    (h : (m.find? (fun p => p.1 == k)).isSome = false) :
    mapGet (m ++ [(k, v)]) k = some v := by
  induction m with
  | nil => simp [mapGet, List.find?]
  | cons p ps ih =>
    by_cases hp : (p.1 == k) = true
    · exfalso
      simp [List.find?_cons, hp] at h
    · have h2 : (ps.find? (fun q => q.1 == k)).isSome = false := by
        rwa [List.find?_cons_of_neg _ (by simpa using hp)] at h
      have := ih h2
      unfold mapGet at this ⊢
      rw [List.cons_append, List.find?_cons_of_neg _ (by simpa using hp)]
      exact this

/-- `HashMap::insert` followed by `get` at the same key yields the new
value — both in the overwrite case and in the fresh case. -/
theorem mapGet_mapInsert (m : List (String × α)) (k : String) (v : α) :
    mapGet (mapInsert m k v) k = some v := by
  unfold mapInsert
  by_cases h : (m.find? (fun p => p.1 == k)).isSome = true
  · rw [if_pos h]
    exact mapGet_map_update m k v h
  · rw [if_neg h]
    exact mapGet_append_new m k v (Bool.eq_false_iff.mpr h)

/-! ### Run lemmas: each sub-parser on a well-formed construct placed at
the cursor position, with an arbitrary builder state and stream suffix -/

theorem parse_block_attribute_run (b : FileBuilder) (cv idv : String) (l : List Event)
    (h : b.events.drop b.idx = blockAttrEvents idv cv ++ l) :
    parse_block_attribute b = Except.ok (some ⟨idv, cv⟩, { b with idx := b.idx + 3 }) ∧
    b.events.drop (b.idx + 3) = l := by
  simp only [blockAttrEvents, List.cons_append, List.nil_append] at h
  have hp1 := peek_event_cons h
  have hn1 := next_event_cons h
  have hd1 := drop_succ_cons h
  have hn2 := next_event_cons (b := { b with idx := b.idx + 1 }) hd1
  have hp2 := peek_event_cons (b := { b with idx := b.idx + 1 }) hd1
  have hd2 := drop_succ_cons (b := { b with idx := b.idx + 1 }) hd1
  have hn3 := next_event_cons (b := { b with idx := b.idx + 1 + 1 }) hd2
  have hd3 := drop_succ_cons (b := { b with idx := b.idx + 1 + 1 }) hd2
  constructor
  · simp only [parse_block_attribute, hp1, hn1, hp2, hn2, hn3, res_bind_ok, res_pure, res_throw,
      terminalAttrsFold, attr, List.foldlM, ctx_some]
    rfl
  · exact hd3

theorem parse_block_attribute_stop (b : FileBuilder) (e : Event) (l : List Event)
    (h : b.events.drop b.idx = e :: l)
    (he : ∀ n p a, e ≠ Event.startTag n p a) :
    parse_block_attribute b = Except.ok (none, b) := by
  have hp1 := peek_event_cons h
  simp only [parse_block_attribute, hp1, res_bind_ok]

theorem parse_method_sequence_blocks_run (b : FileBuilder) (w1 w2 : Option String)
    (l : List Event)
    (h : b.events.drop b.idx =
      Event.emptyTag "Terminal" none (seqTermAttrs "SequenceIn" "Input" w1) ::
      Event.emptyTag "Terminal" none (seqTermAttrs "SequenceOut" "Output" w2) :: l) :
    parse_method_sequence_blocks b =
      Except.ok (((⟨SequenceBlockType.seqIn, (10, 10), w1⟩ : SequenceBlock),
                  (⟨SequenceBlockType.seqOut, (10, 10), w2⟩ : SequenceBlock)),
        { b with idx := b.idx + 2 }) ∧
    b.events.drop (b.idx + 2) = l := by
  have hn1 := next_event_cons h
  have hd1 := drop_succ_cons h
  have hn2 := next_event_cons (b := { b with idx := b.idx + 1 }) hd1
  have hd2 := drop_succ_cons (b := { b with idx := b.idx + 1 }) hd1
  have ha1 : seqTerminalAttrs "SequenceIn" "Input" (seqTermAttrs "SequenceIn" "Input" w1)
      = Except.ok (w1, some (10, 10)) := by cases w1 <;> rfl
  have ha2 : seqTerminalAttrs "SequenceOut" "Output" (seqTermAttrs "SequenceOut" "Output" w2)
      = Except.ok (w2, some (10, 10)) := by cases w2 <;> rfl
  constructor
  · simp only [parse_method_sequence_blocks, hn1, hn2, ha1, ha2, res_bind_ok, res_pure,
      ctx_some]
    rfl
  · exact hd2

theorem parse_motor_move_run (b : FileBuilder) (w1 w2 : Option String) (l : List Event)
    (h : b.events.drop b.idx = motorCallBody w1 w2 ++ l) :
    parse_motor_move (20, 20) b =
      Except.ok (motorBlockVal w1 w2, { b with idx := b.idx + 11 }) ∧
    b.events.drop (b.idx + 11) = Event.endTag "ConfigurableMethodCall" none :: l := by
  have h0 : b.events.drop b.idx = blockAttrEvents "Ports" "xxAxxB" ++
      (blockAttrEvents "Steering" "-50" ++ (blockAttrEvents "Speed" "75" ++
      (Event.emptyTag "Terminal" none (seqTermAttrs "SequenceIn" "Input" w1) ::
       Event.emptyTag "Terminal" none (seqTermAttrs "SequenceOut" "Output" w2) ::
       Event.endTag "ConfigurableMethodCall" none :: l))) := by
    simpa [motorCallBody, List.append_assoc] using h
  obtain ⟨hr1, hd1⟩ := parse_block_attribute_run b "xxAxxB" "Ports" _ h0
  obtain ⟨hr2, hd2⟩ :=
    parse_block_attribute_run { b with idx := b.idx + 3 } "-50" "Steering" _ hd1
  obtain ⟨hr3, hd3⟩ :=
    parse_block_attribute_run { b with idx := b.idx + 3 + 3 } "75" "Speed" _ hd2
  have hstop := parse_block_attribute_stop { b with idx := b.idx + 3 + 3 + 3 } _ _ hd3
    (by intro n p a; simp)
  obtain ⟨hrs, hds⟩ :=
    parse_method_sequence_blocks_run { b with idx := b.idx + 3 + 3 + 3 } w1 w2 _ hd3
  have hlen : b.events.length + 1 - b.idx = l.length + 13 := by
    have hL := congrArg List.length h
    rw [List.length_drop] at hL
    have h12 : (motorCallBody w1 w2 ++ l).length = 12 + l.length := by
      simp [motorCallBody, blockAttrEvents]
      omega
    rw [h12] at hL
    omega
  have hs1 : motorAttrStep {} "Ports" "xxAxxB" =
      Except.ok { ports := some ('A', 'x') } := rfl
  have hs2 : motorAttrStep { ports := some ('A', 'x') } "Steering" "-50" =
      Except.ok { ports := some ('A', 'x'), steering := some (-50) } := rfl
  have hs3 : motorAttrStep { ports := some ('A', 'x'), steering := some (-50) } "Speed" "75" =
      Except.ok { ports := some ('A', 'x'), steering := some (-50), speed := some 75 } := rfl
  constructor
  · simp only [parse_motor_move, hlen]
    rw [show l.length + 13 = (l.length + 12) + 1 from rfl]
    simp only [motorAttrLoop, hr1, hr2, hr3, hstop, hs1, hs2, hs3, hrs, res_bind_ok, ctx_some]
    rfl
  · exact hds

theorem parse_method_call_run (b : FileBuilder) (id : String) (w1 w2 : Option String)
    (l : List Event)
    (h : b.events.drop b.idx = motorCallBody w1 w2 ++ l) :
    parse_method_call (mcAttrs id "MoveUnlimited\\.vix") b =
      Except.ok ((id, motorBlockVal w1 w2), { b with idx := b.idx + 12 }) := by
  obtain ⟨hmm, hd⟩ := parse_motor_move_run b w1 w2 l h
  have hn := next_event_cons (b := { b with idx := b.idx + 11 }) hd
  have hattrs : methodCallAttrs (mcAttrs id "MoveUnlimited\\.vix") =
      Except.ok (some id, some (20, 20), some "MoveUnlimited\\.vix") := rfl
  simp only [parse_method_call, hattrs, hmm, hn, res_bind_ok, res_pure, ctx_some]
  rfl

theorem parse_start_block_run (b : FileBuilder) (id : String) (w : Option String)
    (l : List Event)
    (h : b.events.drop b.idx = startBlockBody w ++ l) :
    parse_start_block (sbAttrs id) b =
      Except.ok ((id, startBlockVal w), { b with idx := b.idx + 5 }) ∧
    b.events.drop (b.idx + 5) = l := by
  simp only [startBlockBody, List.cons_append, List.nil_append] at h
  have hn1 := next_event_cons h
  have hd1 := drop_succ_cons h
  have hn2 := next_event_cons (b := { b with idx := b.idx + 1 }) hd1
  have hd2 := drop_succ_cons (b := { b with idx := b.idx + 1 }) hd1
  have hn3 := next_event_cons (b := { b with idx := b.idx + 1 + 1 }) hd2
  have hd3 := drop_succ_cons (b := { b with idx := b.idx + 1 + 1 }) hd2
  have hn4 := next_event_cons (b := { b with idx := b.idx + 1 + 1 + 1 }) hd3
  have hd4 := drop_succ_cons (b := { b with idx := b.idx + 1 + 1 + 1 }) hd3
  have hn5 := next_event_cons (b := { b with idx := b.idx + 1 + 1 + 1 + 1 }) hd4
  have hd5 := drop_succ_cons (b := { b with idx := b.idx + 1 + 1 + 1 + 1 }) hd4
  have hattrs : startBlockAttrs (sbAttrs id) = Except.ok (some id, some 20, some 20) := rfl
  have hterm : startBlockTerminalAttrs (sbOutAttrs w) = Except.ok (some (10, 10), w) := by
    cases w <;> rfl
  constructor
  · simp only [parse_start_block, hattrs, hn1, hn2, hn3, hn4, hn5, hterm, res_bind_ok,
      res_pure, ctx_some]
    rfl
  · exact hd5

/-! ### Lemmas about `collectOpts` -/

theorem collectOpts_none_of_mem {f : α → Option β} {l : List α} {x : α}
    (hx : x ∈ l) (hfx : f x = none) : collectOpts f l = none := by
  induction l with
  | nil => cases hx
  | cons y ys ih =>
    rcases List.mem_cons.mp hx with rfl | hmem
    · unfold collectOpts
      rw [hfx]
    · unfold collectOpts
      cases hfy : f y
      · rfl
      · rw [ih hmem]; rfl

theorem collectOpts_length {f : α → Option β} {l : List α} {v : List β}
    (h : collectOpts f l = some v) : v.length = l.length := by
  induction l generalizing v with
  | nil =>
    unfold collectOpts at h
    simp only [Option.some.injEq] at h
    subst h; rfl
  | cons y ys ih =>
    unfold collectOpts at h
    cases hfy : f y with
    | none => rw [hfy] at h; cases h
    | some z =>
      rw [hfy] at h
      cases hres : collectOpts f ys with
      | none => rw [hres] at h; cases h
      | some w =>
        rw [hres] at h
        have hv : v = z :: w := by simpa using h.symm
        subst hv
        simp [ih hres]

/-! ### Claim theorems -/

/-- Claim C9: `next_event` returns the event at the current position and
advances by one, `peek_event` returns the same event without advancing,
and both fail with the end-of-stream error exactly when the position is
past the last event. -/
theorem claim_c9_event_cursor (b : FileBuilder) :
    (∀ h : b.idx < b.events.length,
      next_event b = Except.ok (b.events.get ⟨b.idx, h⟩, { b with idx := b.idx + 1 }) ∧
      peek_event b = Except.ok (b.events.get ⟨b.idx, h⟩)) ∧
    (b.events.length ≤ b.idx →
      next_event b = Except.error (PErr.msg "Invalid index into events") ∧
      peek_event b = Except.error (PErr.msg "Invalid index into events")) := by
  constructor
  · intro h
    constructor
    · unfold next_event; rw [dif_pos h]
    · unfold peek_event; rw [dif_pos h]
  · intro h
    have hn : ¬ b.idx < b.events.length := not_lt.mpr h
    constructor
    · unfold next_event; rw [dif_neg hn]
    · unfold peek_event; rw [dif_neg hn]

/-- Witness for C9 at a one-event stream: a peek followed by a next
returns the same event twice, and the exhausted cursor fails. -/
theorem claim_c9_witness :
    peek_event { events := [Event.comment], idx := 0 } = Except.ok Event.comment ∧
    next_event { events := [Event.comment], idx := 0 } =
      Except.ok (Event.comment, { events := [Event.comment], idx := 1 }) ∧
    next_event { events := [Event.comment], idx := 1 } =
      Except.error (PErr.msg "Invalid index into events") :=
  ⟨((claim_c9_event_cursor { events := [Event.comment], idx := 0 }).1 (by decide)).2,
   ((claim_c9_event_cursor { events := [Event.comment], idx := 0 }).1 (by decide)).1,
   ((claim_c9_event_cursor { events := [Event.comment], idx := 1 }).2 (by decide)).1⟩

/-- Claim C3: decoding `"N(a:SequenceIn) N(b:SequenceOut) H(c:Bend)"`
yields input `"a"` and output `"b"`, the `H` token being ignored, and a
joints string whose `N` tokens carry two `SequenceOut` roles and no
`SequenceIn` fails with the missing-input-joint error. -/
theorem claim_c3_joints_example :
    parse_joints "N(a:SequenceIn) N(b:SequenceOut) H(c:Bend)" = Except.ok ("a", "b") ∧
    parse_joints "N(x:SequenceOut) N(y:SequenceOut)" =
      Except.error (PErr.msg "Expected input joint") :=
  ⟨rfl, rfl⟩

/-- Claim C10: on token-level syntax violations — an empty token, an `N`
token without `:`, an `N` token without `)` — `parse_joints` panics
(modelled by `PErr.panic`) instead of returning an error value. -/
theorem claim_c10_joints_panics :
    parse_joints "" = Except.error PErr.panic ∧
    parse_joints "N(a" = Except.error PErr.panic ∧
    parse_joints "N(a:SequenceIn" = Except.error PErr.panic :=
  ⟨rfl, rfl, rfl⟩

/-- Claim C2: on exactly 4 space-separated fields that each parse as a
`usize` the bounds decoder returns the values of fields 3 and 4; on any
other field count, or any field that does not parse as a `usize` (not an
unsigned integer, or beyond `usize::MAX`), it fails with a
malformed-bounds error. -/
theorem claim_c2_parse_bounds :
    (∀ (s : String) (a b c d : List Char) (va vb vc vd : Nat),
      splitChar ' ' s.data = [a, b, c, d] →
      parseUsize a = some va → parseUsize b = some vb →
      parseUsize c = some vc → parseUsize d = some vd →
      parse_bounds s = Except.ok (vc, vd)) ∧
    (∀ s : String,
      ((splitChar ' ' s.data).length ≠ 4 ∨ ∃ f ∈ splitChar ' ' s.data, parseUsize f = none) →
      ∃ m, parse_bounds s = Except.error (PErr.msg m)) := by
  constructor
  · intro s a b c d va vb vc vd hsplit ha hb hc hd
    unfold parse_bounds
    rw [hsplit]
    simp [collectOpts, ha, hb, hc, hd]
  · intro s h
    rcases h with hlen | ⟨f, hmem, hf⟩
    · cases hco : collectOpts parseUsize (splitChar ' ' s.data) with
      | none =>
        refine ⟨"Invalid number in bounds", ?_⟩
        unfold parse_bounds
        rw [hco]
      | some vals =>
        have hvl : vals.length ≠ 4 := by rw [collectOpts_length hco]; exact hlen
        refine ⟨"Expected 4 bounds", ?_⟩
        unfold parse_bounds
        rw [hco]
        rcases vals with _ | ⟨v1, _ | ⟨v2, _ | ⟨v3, _ | ⟨v4, _ | ⟨v5, rest⟩⟩⟩⟩⟩ <;>
          first
            | rfl
            | exact absurd rfl hvl
    · refine ⟨"Invalid number in bounds", ?_⟩
      unfold parse_bounds
      rw [collectOpts_none_of_mem hmem hf]

/-- Characterization of the joints loop on panic-free token lists: it
succeeds iff every token's role is acceptable, and the resulting slots are
filled iff they were already filled or some token supplies the role. -/
theorem jointsFold_spec (toks : List (List Char))
    (hwf : ∀ t ∈ toks, tokWF t = true) :
    ∀ acc : Option (List Char) × Option (List Char),
      ((∃ r, jointsFold toks acc = Except.ok r) ↔ ∀ t ∈ toks, roleOk t = true) ∧
      (∀ r, jointsFold toks acc = Except.ok r →
        r.1.isSome = (acc.1.isSome || hasRole "SequenceIn".data toks) ∧
        r.2.isSome = (acc.2.isSome || hasRole "SequenceOut".data toks)) := by
  induction toks with
  | nil =>
    intro acc
    constructor
    · simp [jointsFold]
    · intro r hr
      simp only [jointsFold, Except.ok.injEq] at hr
      subst hr
      simp [hasRole]
  | cons t ts ih =>
    intro acc
    have hwt : tokWF t = true := hwf t (List.mem_cons_self t ts)
    have hwts : ∀ u ∈ ts, tokWF u = true := fun u hu => hwf u (List.mem_cons_of_mem t hu)
    have hhr : ∀ r9 : List Char, hasRole r9 (t :: ts) =
        ((tokRole t == some r9) || hasRole r9 ts) := by
      intro r9
      simp [hasRole]
    unfold jointsFold jointsStep
    cases hjt : jointToken t with
    | error e => rw [tokWF, hjt] at hwt; cases hwt
    | ok o =>
      cases o with
      | none =>
        have hrole2 : tokRole t = none := by rw [tokRole, hjt]
        have hro : roleOk t = true := by rw [roleOk, hrole2]
        simp only [res_bind_ok, res_pure]
        constructor
        · rw [(ih hwts acc).1]
          simp [List.forall_mem_cons, hro]
        · intro r hr
          have h2 := (ih hwts acc).2 r hr
          rw [hhr, hhr, hrole2] at *
          simpa using h2
      | some p =>
        obtain ⟨pid, prole⟩ := p
        have hrole2 : tokRole t = some prole := by rw [tokRole, hjt]
        simp only [res_bind_ok]
        by_cases hout : prole = "SequenceOut".data
        · subst hout
          have hro : roleOk t = true := by rw [roleOk, hrole2]; decide
          have hbi : (tokRole t == some "SequenceIn".data) = false := by
            rw [hrole2]; decide
          have hbo : (tokRole t == some "SequenceOut".data) = true := by
            rw [hrole2]; decide
          rw [if_pos rfl]
          simp only [res_pure, res_bind_ok]
          constructor
          · rw [(ih hwts (acc.1, some pid)).1]
            simp [List.forall_mem_cons, hro]
          · intro r hr
            have h2 := (ih hwts (acc.1, some pid)).2 r hr
            constructor
            · rw [h2.1, hhr, hbi, Bool.false_or]
            · rw [h2.2, hhr, hbo]
              simp
        · by_cases hin : prole = "SequenceIn".data
          · subst hin
            have hro : roleOk t = true := by rw [roleOk, hrole2]; decide
            have hbi : (tokRole t == some "SequenceIn".data) = true := by
              rw [hrole2]; decide
            have hbo : (tokRole t == some "SequenceOut".data) = false := by
              rw [hrole2]; decide
            rw [if_neg (by decide), if_pos rfl]
            simp only [res_pure, res_bind_ok]
            constructor
            · rw [(ih hwts (some pid, acc.2)).1]
              simp [List.forall_mem_cons, hro]
            · intro r hr
              have h2 := (ih hwts (some pid, acc.2)).2 r hr
              constructor
              · rw [h2.1, hhr, hbi]
                simp
              · rw [h2.2, hhr, hbo, Bool.false_or]
          · have hro : roleOk t = false := by
              rw [roleOk, hrole2]
              simp only [Bool.or_eq_false_iff, beq_eq_false_iff_ne, ne_eq]
              exact ⟨hin, hout⟩
            rw [if_neg hout, if_neg hin]
            simp only [res_bind_error]
            constructor
            · constructor
              · rintro ⟨r, hr⟩; cases hr
              · intro hall
                have ht := hall t (List.mem_cons_self t ts)
                rw [hro] at ht
                cases ht
            · intro r hr; cases hr

/-- Counterexample for C4 as stated: a joints string with two `N` tokens
of role `SequenceIn` alongside a `SequenceOut` is claimed to fail, but the
decoder succeeds — the later `SequenceIn` silently wins. -/
theorem claim_c4_counterexample :
    parse_joints "N(a:SequenceIn) N(b:SequenceIn) N(c:SequenceOut)" =
      Except.ok ("b", "c") := rfl

/-- Claim C4 (amended): on inputs whose tokens decode without panicking,
the joint decoder succeeds iff every `N` token's role is `SequenceIn` or
`SequenceOut` and at least one token carries each of the two roles;
duplicate roles are not rejected (the last token of a role wins). -/
theorem claim_c4_joints_success (s : String)
    (hwf : ∀ t ∈ splitChar ' ' s.data, tokWF t = true) :
    (∃ p, parse_joints s = Except.ok p) ↔
      ((∀ t ∈ splitChar ' ' s.data, roleOk t = true) ∧
       hasRole "SequenceIn".data (splitChar ' ' s.data) = true ∧
       hasRole "SequenceOut".data (splitChar ' ' s.data) = true) := by
  have hspec := jointsFold_spec (splitChar ' ' s.data) hwf (none, none)
  constructor
  · rintro ⟨p, hp⟩
    unfold parse_joints at hp
    cases hfold : jointsFold (splitChar ' ' s.data) (none, none) with
    | error e => rw [hfold] at hp; cases hp
    | ok r =>
      have hall := hspec.1.mp ⟨r, hfold⟩
      have hslots := hspec.2 r hfold
      rw [hfold] at hp
      simp only [res_bind_ok] at hp
      cases h1 : r.1 with
      | none => rw [h1] at hp; simp only [ctx_none, res_bind_error] at hp; cases hp
      | some i =>
        cases h2 : r.2 with
        | none =>
          rw [h1, h2] at hp
          simp only [ctx_some, ctx_none, res_bind_ok, res_bind_error] at hp
          cases hp
        | some o =>
          refine ⟨hall, ?_, ?_⟩
          · have := hslots.1
            rw [h1] at this
            simpa using this.symm
          · have := hslots.2
            rw [h2] at this
            simpa using this.symm
  · rintro ⟨hall, hin, hout⟩
    obtain ⟨r, hfold⟩ := hspec.1.mpr hall
    have hslots := hspec.2 r hfold
    have h1 : r.1.isSome = true := by rw [hslots.1, hin]; simp
    have h2 : r.2.isSome = true := by rw [hslots.2, hout]; simp
    obtain ⟨i, hi⟩ := Option.isSome_iff_exists.mp h1
    obtain ⟨o, ho⟩ := Option.isSome_iff_exists.mp h2
    refine ⟨(String.mk i, String.mk o), ?_⟩
    unfold parse_joints
    rw [hfold]
    simp only [res_bind_ok]
    rw [hi, ho]
    rfl

/-- Witness for C4 (amended): the two-role joints string succeeds, and one
with a bad role or a missing role is rejected by the characterization. -/
theorem claim_c4_witness :
    ∃ p, parse_joints "N(a:SequenceIn) N(b:SequenceOut)" = Except.ok p :=
  (claim_c4_joints_success "N(a:SequenceIn) N(b:SequenceOut)" (by decide)).mpr (by decide)

/-- Witness for C2: the bounds string `"1 2 3 4"` decodes to `(3, 4)`; the
3-field string `"1 2 3"` is rejected; and a 4-field string whose last
field exceeds `usize::MAX` is rejected as well. -/
theorem claim_c2_witness :
    parse_bounds "1 2 3 4" = Except.ok (3, 4) ∧
    (∃ m, parse_bounds "1 2 3" = Except.error (PErr.msg m)) ∧
    (∃ m, parse_bounds "1 2 3 99999999999999999999" = Except.error (PErr.msg m)) :=
  ⟨claim_c2_parse_bounds.1 "1 2 3 4" "1".data "2".data "3".data "4".data 1 2 3 4
      rfl rfl rfl rfl rfl,
   claim_c2_parse_bounds.2 "1 2 3" (Or.inl (by decide)),
   claim_c2_parse_bounds.2 "1 2 3 99999999999999999999"
     (Or.inr ⟨"99999999999999999999".data, by decide, by decide⟩)⟩

/-- Counterexample for C1 as stated: with `Target`=`"MoveUnlimited.vix"`
(no backslash) an otherwise well-formed method call fails with the
unknown-call-type error, and with the `Target` value the code actually
matches (`MoveUnlimited\\.vix`, containing a literal backslash) the block
attribute `Ports`=`"xxAxxB"` yields ports `('A', 'x')` — the characters at
indices 2 and 4 — not `('A', 'B')`. -/
theorem claim_c1_counterexample :
    parse_method_call (mcAttrs "m1" "MoveUnlimited.vix")
      { events := motorCallBody (some "w1") (some "w2"), idx := 0 } =
      Except.error (PErr.msg "Unknown call type") ∧
    parse_method_call (mcAttrs "m1" "MoveUnlimited\\.vix")
      { events := motorCallBody (some "w1") (some "w2"), idx := 0 } =
      Except.ok (("m1", motorBlockVal (some "w1") (some "w2")),
        { events := motorCallBody (some "w1") (some "w2"), idx := 12 }) :=
  ⟨rfl, rfl⟩

/-- Claim C1 (amended): at any position of any event stream, a well-formed
`ConfigurableMethodCall` whose `Target` is the literal `MoveUnlimited\.vix`
(with backslash) and whose block attributes give `Ports`=`"xxAxxB"`,
`Steering`=`"-50"`, `Speed`=`"75"`, followed by the terminal pair and close
tag, parses to a MotorMove block with ports `('A', 'x')`, steering `-50`
and speed `75`, consuming exactly the construct. -/
theorem claim_c1_motor_move (b : FileBuilder) (id : String) (w1 w2 : Option String)
    (l : List Event)
    (h : b.events.drop b.idx = motorCallBody w1 w2 ++ l) :
    parse_method_call (mcAttrs id "MoveUnlimited\\.vix") b =
      Except.ok ((id, motorBlockVal w1 w2), { b with idx := b.idx + 12 }) :=
  parse_method_call_run b id w1 w2 l h

/-- Witness for C1 (amended) at a concrete stream. -/
theorem claim_c1_witness :
    parse_method_call (mcAttrs "m2" "MoveUnlimited\\.vix")
      { events := motorCallBody none none, idx := 0 } =
      Except.ok (("m2", motorBlockVal none none),
        { events := motorCallBody none none, idx := 12 }) :=
  claim_c1_motor_move { events := motorCallBody none none, idx := 0 } "m2" none none []
    (by simp)

/-- Counterexample for C5 as stated: two well-formed
`ConfigurableMethodCall` constructs sharing one id make the parse fail —
a duplicate block id is fatal on this path, not a silent overwrite. -/
theorem claim_c5_counterexample :
    parse { events := c5Stream, idx := 0 } =
      Except.error (PErr.msg "Multiple blocks with id used") := rfl

/-- Claim C5 (amended): a duplicate block id is handled asymmetrically.
A later `StartBlock` with an already-used id parses successfully and
silently overwrites the earlier entry; a later `ConfigurableMethodCall`
with an already-used id fails with the duplicate-block error. -/
theorem claim_c5_duplicate_blocks :
    (∀ (b : FileBuilder) (id : String) (old : Block) (w : Option String) (l : List Event),
      b.events.drop b.idx = startBlockBody w ++ l →
      mapGet b.blocks id = some old →
      parse_start_tag "StartBlock" none (sbAttrs id) b =
        Except.ok ((), { b with idx := b.idx + 5,
                                blocks := mapInsert b.blocks id (startBlockVal w) }) ∧
      mapGet (mapInsert b.blocks id (startBlockVal w)) id = some (startBlockVal w)) ∧
    (∀ (b : FileBuilder) (id : String) (w1 w2 : Option String) (l : List Event),
      b.events.drop b.idx = motorCallBody w1 w2 ++ l →
      (mapGet b.blocks id).isSome = true →
      parse_start_tag "ConfigurableMethodCall" none (mcAttrs id "MoveUnlimited\\.vix") b =
        Except.error (PErr.msg "Multiple blocks with id used")) := by
  constructor
  · intro b id old w l h hdup
    obtain ⟨hsb, _⟩ := parse_start_block_run b id w l h
    constructor
    · simp only [parse_start_tag, hsb, res_bind_ok]
      rfl
    · exact mapGet_mapInsert b.blocks id (startBlockVal w)
  · intro b id w1 w2 l h hdup
    have hmc := parse_method_call_run b id w1 w2 l h
    simp only [parse_start_tag, hmc, hdup, res_bind_ok]
    rfl

/-- Witness for C5 (amended), at concrete streams: the `StartBlock` path
overwrites, the `ConfigurableMethodCall` path fails. -/
theorem claim_c5_witness :
    parse_start_tag "StartBlock" none (sbAttrs "s")
        { blocks := [("s", startBlockVal none)], events := startBlockBody (some "w9"),
          idx := 0 } =
      Except.ok ((), { blocks := [("s", startBlockVal (some "w9"))],
                       events := startBlockBody (some "w9"), idx := 5 }) ∧
    parse_start_tag "ConfigurableMethodCall" none (mcAttrs "s" "MoveUnlimited\\.vix")
        { blocks := [("s", startBlockVal none)], events := motorCallBody none none,
          idx := 0 } =
      Except.error (PErr.msg "Multiple blocks with id used") :=
  ⟨((claim_c5_duplicate_blocks.1
      { blocks := [("s", startBlockVal none)], events := startBlockBody (some "w9"), idx := 0 }
      "s" (startBlockVal none) (some "w9") [] (by simp) rfl).1),
   (claim_c5_duplicate_blocks.2
      { blocks := [("s", startBlockVal none)], events := motorCallBody none none, idx := 0 }
      "s" none none [] (by simp) rfl)⟩

/-- Claim C6: a well-formed `Wire` empty tag inserts its wire keyed by its
id when the id is fresh, and processing a second `Wire` tag with the same
id fails with the duplicate-wire error; concretely, a stream of two equal
`Wire` tags fails the whole parse with that error. -/
theorem claim_c6_duplicate_wire :
    (∀ (b : FileBuilder) (id j i o : String),
      parse_joints j = Except.ok (i, o) →
      mapGet b.wires id = none →
      parse_empty_tag "Wire" none (wireAttrs id j) b =
        Except.ok ((), { b with wires := mapInsert b.wires id ⟨i, o⟩ }) ∧
      mapGet (mapInsert b.wires id (⟨i, o⟩ : Wire)) id = some ⟨i, o⟩ ∧
      parse_empty_tag "Wire" none (wireAttrs id j)
          { b with wires := mapInsert b.wires id ⟨i, o⟩ } =
        Except.error (PErr.msg "Found duplicate wire ids")) ∧
    parse { events :=
        [Event.emptyTag "Wire" none (wireAttrs "w0" "N(a:SequenceIn) N(b:SequenceOut)"),
         Event.emptyTag "Wire" none (wireAttrs "w0" "N(a:SequenceIn) N(b:SequenceOut)"),
         Event.eof], idx := 0 } =
      Except.error (PErr.msg "Found duplicate wire ids") := by
  constructor
  · intro b id j i o hj hfresh
    have hwt : parse_wire_tag (wireAttrs id j) = Except.ok (id, ⟨i, o⟩) := by
      simp only [parse_wire_tag, wireAttrs, attr, List.foldlM, hj, res_bind_ok, res_pure,
        ctx_some]
    have hdup := mapGet_mapInsert b.wires id (⟨i, o⟩ : Wire)
    refine ⟨?_, hdup, ?_⟩
    · simp only [parse_empty_tag, hwt, hfresh, res_bind_ok]
      rfl
    · simp only [parse_empty_tag, hwt, hdup, res_bind_ok]
      rfl
  · rfl

/-- Witness for C6 at a concrete wire tag and a fresh builder. -/
theorem claim_c6_witness :
    parse_empty_tag "Wire" none (wireAttrs "w1" "N(a:SequenceIn) N(b:SequenceOut)") { } =
      Except.ok ((), { wires := [("w1", (⟨"a", "b"⟩ : Wire))] }) :=
  (claim_c6_duplicate_wire.1 { } "w1" "N(a:SequenceIn) N(b:SequenceOut)" "a" "b" rfl rfl).1

/-- A start tag whose name is outside the handled whitelist always fails
the dispatch. -/
theorem parse_start_tag_unknown (name : String) (pfx : Option String)
    (attrs : List ParsedAttribute) (b : FileBuilder)
    (hname : name ∉ startTagWhitelist) :
    parse_start_tag name pfx attrs b =
      Except.error (PErr.msg "start tag not implemented") := by
  simp only [startTagWhitelist, List.mem_cons, List.not_mem_nil, or_false, not_or] at hname
  obtain ⟨h1, h2, h3, h4, h5, h6, h7, h8, h9, h10, h11⟩ := hname
  simp only [parse_start_tag]

/-- Claim C7: whenever the top-level dispatch reaches a start tag whose
name is outside the whitelist, the parse loop fails with the unknown-tag
error — from any builder state, with any remaining fuel — and a failing
parse propagates out of the per-file entry point, so no `File` value is
returned to the caller. -/
theorem claim_c7_unknown_tag :
    (∀ (b : FileBuilder) (name : String) (pfx : Option String)
        (attrs : List ParsedAttribute) (l : List Event) (fuel : Nat),
      name ∉ startTagWhitelist →
      b.events.drop b.idx = Event.startTag name pfx attrs :: l →
      parseLoop (fuel + 1) b = Except.error (PErr.msg "start tag not implemented")) ∧
    (∀ (nm : String) (evs : List Event) (e : PErr),
      parse { events := evs, idx := 0, name := some nm } = Except.error e →
      runFile nm evs = Except.error e) := by
  constructor
  · intro b name pfx attrs l fuel hname h
    have hn := next_event_cons h
    have hu := parse_start_tag_unknown name pfx attrs { b with idx := b.idx + 1 } hname
    simp only [parseLoop, hn, hu, res_bind_ok, res_bind_error]
  · intro nm evs e hp
    have h1 : runFile nm evs =
        (parse { events := evs, idx := 0, name := some nm }) >>= build := rfl
    rw [h1, hp]
    rfl

/-- Witness for C7 at a one-tag stream with an unhandled name. -/
theorem claim_c7_witness :
    parseLoop 1 { events := [Event.startTag "Bogus" none []], idx := 0 } =
      Except.error (PErr.msg "start tag not implemented") :=
  claim_c7_unknown_tag.1 { events := [Event.startTag "Bogus" none []], idx := 0 }
    "Bogus" none [] [] 0 (by decide) rfl

/-- Counterexample for C8 as stated: the minimal stream exactly as listed
(no declaration event) fails to build — the declaration is required. -/
theorem claim_c8_counterexample :
    runFile "prog" (minimalStreamNoDecl "b1" (some "w1")) =
      Except.error (PErr.msg "No decl found") := rfl

/-- Claim C8 (amended): the minimal document — declaration, `SourceFile`
with `Version`/`xmlns`, `Namespace`(Project), `VirtualInstrument`,
`FrontPanel`, `BlockDiagram`(__RootDiagram__), one well-formed `StartBlock`
construct, end of stream — builds successfully into a document with
exactly one block, keyed by the StartBlock id, of the Start variant, whose
`sequence_out.wire_id` is the declared `Wire` value or absent when no
`Wire` attribute is present. -/
theorem claim_c8_minimal_document (nm id : String) (w : Option String) :
    runFile nm (minimalStream id w) =
      Except.ok { decl := "xml-decl", version := { number := "1.0", ns := "ns" }, name := nm,
                  blocks := [(id, startBlockVal w)], wires := [] } := by
  cases w <;> rfl

end Mindstormer
